import Mathlib

/-!
Shallow embedding of `src/ocr_data_processor.py` (gbif-norway/gpt-batch-wrapper).

The Python module builds one chat-completion request per OCR record
(`prepare_data`), submits them as a batch (`_create_batch`), polls the batch
until a terminal status (`wait_for_batch_completion`, driven by a tenacity
retry decorator), and assembles the per-record JSON results
(`process_responses`, using the tolerant `json_repair` parser).

Python dicts are embedded as association lists whose keys are distinct
(hypotheses state `Nodup` where it matters); exceptions are embedded as
explicit result constructors carrying the exception class name as a string.
-/

/-- JSON values, as carried in HTTP bodies and produced by the tolerant
parser.  Numbers are restricted to integers, which is all the exercised
payloads contain. -/
inductive JsonV where
| null : JsonV
| bool (b : Bool) : JsonV
| num (n : Int) : JsonV
| str (s : String) : JsonV
| arr (elems : List JsonV) : JsonV
| obj (members : List (String × JsonV)) : JsonV

/-- One `{"role": ..., "content": ...}` chat message, as built on line 32 of
the source. -/
structure ChatMessage where
  role : String
  content : String
deriving Repr, DecidableEq

/-- The request body built on line 32: a model selector plus the two-message
conversation (system prompt, then the raw OCR text). -/
structure RequestBody where
  model : String
  messages : List ChatMessage
deriving Repr, DecidableEq

/-- One row of the dataframe returned by `prepare_data` (the `ocr` column is
dropped before returning): an inference request of the batch file. -/
structure InferenceRequest where
  custom_id : String
  method : String
  url : String
  body : RequestBody
deriving Repr, DecidableEq

/-- `OCRDataProcessor.prepare_data` (source lines 27-34): each key of the
`ocr_data` dict becomes the `custom_id` of one request row; `method`, `url`
are constants; the body pairs the fixed system prompt with the record's OCR
text. -/
def prepare_data (ocr_data : List (String × String)) (system_prompt : String)
    (model : String) : List InferenceRequest :=
  ocr_data.map fun kv =>
    { custom_id := kv.1
      method := "POST"
      url := "/v1/chat/completions"
      body := { model := model
                messages := [{ role := "system", content := system_prompt },
                             { role := "user", content := kv.2 }] } }

theorem prepare_data_map_custom_id (ocr_data : List (String × String))
    (system_prompt model : String) :
    (prepare_data ocr_data system_prompt model).map (fun r => r.custom_id) =
      ocr_data.map Prod.fst := by
  rw [prepare_data, List.map_map]
  rfl

/-- C6: for every non-empty input mapping (distinct keys, as in a Python
dict), `prepare_data` produces exactly one inference request per input
record, and the list of `custom_id`s is exactly the list of input keys,
hence each key occurs exactly once. -/
theorem prepare_data_count_and_ids (ocr_data : List (String × String))
    (system_prompt model : String) (hne : ocr_data ≠ [])
    (hnodup : (ocr_data.map Prod.fst).Nodup) :
    (prepare_data ocr_data system_prompt model).length = ocr_data.length ∧
    (prepare_data ocr_data system_prompt model).map (fun r => r.custom_id) =
      ocr_data.map Prod.fst ∧
    ((prepare_data ocr_data system_prompt model).map (fun r => r.custom_id)).Nodup := by
  refine ⟨?_, prepare_data_map_custom_id .., ?_⟩
  · rw [prepare_data, List.length_map]
  · rw [prepare_data_map_custom_id]
    exact hnodup

theorem prepare_data_count_and_ids_witness :
    (prepare_data [("id1", "t"), ("id2", "u")] "P" "m").length =
      [("id1", "t"), ("id2", "u")].length ∧
    (prepare_data [("id1", "t"), ("id2", "u")] "P" "m").map (fun r => r.custom_id) =
      [("id1", "t"), ("id2", "u")].map Prod.fst ∧
    ((prepare_data [("id1", "t"), ("id2", "u")] "P" "m").map
        (fun r => r.custom_id)).Nodup :=
  prepare_data_count_and_ids [("id1", "t"), ("id2", "u")] "P" "m"
    (by decide) (by decide)

/-- C7: on the single-record input mapping id1 to the sample text, with
system prompt P and model m, `prepare_data` yields exactly the one request
the spec writes out. -/
theorem prepare_data_single_example :
    prepare_data [("id1", "sample text")] "P" "m" =
    [{ custom_id := "id1", method := "POST", url := "/v1/chat/completions",
       body := { model := "m",
                 messages := [{ role := "system", content := "P" },
                              { role := "user", content := "sample text" }] } }] := rfl

/-- Whitespace test used by the tolerant parser. -/
def isWsChar (c : Char) : Bool :=
  c == ' ' || c == '\n' || c == '\t' || c == '\r'

/-- Drop leading whitespace. -/
def skipWs (cs : List Char) : List Char :=
  cs.dropWhile isWsChar

/-- Characters that end a bare (unquoted) token. -/
def isDelimChar (c : Char) : Bool :=
  c == ',' || c == ':' || c == '\x7d' || c == ']' || c == '\x7b' || c == '[' ||
    c == '\"' || isWsChar c

/-- Read a bare (unquoted) token up to the next delimiter. -/
def bareWord (cs : List Char) : String × List Char :=
  ((cs.takeWhile (fun c => !isDelimChar c)).asString,
   cs.dropWhile (fun c => !isDelimChar c))

/-- Read a quoted string body up to (and consuming) the closing quote. -/
def parseQuoted (cs : List Char) : String × List Char :=
  ((cs.takeWhile (fun c => c != '\"')).asString,
   match cs.dropWhile (fun c => c != '\"') with
   | _ :: rest => rest
   | [] => [])

/-- Decimal value of a digit string. -/
def digitsToNat (ds : List Char) : Nat :=
  ds.foldl (fun n c => n * 10 + (c.toNat - '0'.toNat)) 0

/-- Read a (possibly negative) integer literal. -/
def parseNum (cs : List Char) : Option (JsonV × List Char) :=
  match cs with
  | '-' :: rest =>
    let ds := rest.takeWhile Char.isDigit
    if ds.isEmpty then none
    else some (.num (-(Int.ofNat (digitsToNat ds))), rest.dropWhile Char.isDigit)
  | _ =>
    let ds := cs.takeWhile Char.isDigit
    if ds.isEmpty then none
    else some (.num (Int.ofNat (digitsToNat ds)), cs.dropWhile Char.isDigit)

/-- Mode of the recursive-descent tolerant parser: a value, the members of an
object being accumulated, or the elements of an array being accumulated. -/
inductive ParseMode where
| value : ParseMode
| members (acc : List (String × JsonV)) : ParseMode
| elems (acc : List JsonV) : ParseMode

/-- Modelled from the spec: the repository delegates content parsing to the
external `json_repair` dependency (absent from the repository), which the
spec describes as a tolerant/repairing parser that recovers valid JSON from
near-valid or malformed text — trailing commas, unquoted keys, truncated
structures — rather than failing outright.  This recursive-descent parser
realises that contract: object keys may be bare or quoted, separators and
trailing commas are skipped, and a structure truncated at end of input is
closed with the members read so far.  Fuel bounds the recursion. -/
def parseJ : Nat → ParseMode → List Char → Option (JsonV × List Char)
  | 0, _, _ => none
  | fuel + 1, .value, cs =>
    match skipWs cs with
    | [] => none
    | '\x7b' :: rest => parseJ fuel (.members []) rest
    | '[' :: rest => parseJ fuel (.elems []) rest
    | '\"' :: rest =>
      let qr := parseQuoted rest
      some (.str qr.1, qr.2)
    | c :: rest =>
      if c == '-' || c.isDigit then
        parseNum (c :: rest)
      else
        let wr := bareWord (c :: rest)
        if wr.1 = "true" then some (.bool true, wr.2)
        else if wr.1 = "false" then some (.bool false, wr.2)
        else if wr.1 = "null" then some (.null, wr.2)
        else if wr.1.isEmpty then none
        else some (.str wr.1, wr.2)
  | fuel + 1, .members acc, cs =>
    match skipWs cs with
    | [] => some (.obj acc.reverse, [])
    | '\x7d' :: rest => some (.obj acc.reverse, rest)
    | ',' :: rest => parseJ fuel (.members acc) rest
    | cs2 =>
      let keyRest : Option (String × List Char) :=
        match cs2 with
        | '\"' :: rest => some (parseQuoted rest)
        | _ =>
          let wr := bareWord cs2
          if wr.1.isEmpty then none else some wr
      match keyRest with
      | none => none
      | some kr =>
        match skipWs kr.2 with
        | ':' :: rest4 =>
          match parseJ fuel .value rest4 with
          | some vr => parseJ fuel (.members ((kr.1, vr.1) :: acc)) vr.2
          | none => none
        | _ => none
  | fuel + 1, .elems acc, cs =>
    match skipWs cs with
    | [] => some (.arr acc.reverse, [])
    | ']' :: rest => some (.arr acc.reverse, rest)
    | ',' :: rest => parseJ fuel (.elems acc) rest
    | cs2 =>
      match parseJ fuel .value cs2 with
      | some vr => parseJ fuel (.elems (vr.1 :: acc)) vr.2
      | none => none

/-- Modelled from the spec: `json_repair.loads` as called on source line 90.
Parses with the tolerant parser above; when no structure at all can be
recovered it falls back to the empty string, mirroring the dependency's
fallback value. -/
def json_repair_loads (s : String) : JsonV :=
  match parseJ (s.length + 1) .value s.toList with
  | some vr => vr.1
  | none => JsonV.str ""

example : json_repair_loads "\x7b\"x\":1\x7d" = JsonV.obj [("x", JsonV.num 1)] := rfl
example : json_repair_loads "\x7bx:1,\x7d" = JsonV.obj [("x", JsonV.num 1)] := rfl
example : json_repair_loads "\x7b\x7d" = JsonV.obj [] := rfl

/-- The `message` object of one choice of one output line. -/
structure ResponseMessage where
  content : String
deriving Repr, DecidableEq

/-- One element of the `choices` array of an output line's response body. -/
structure ResponseChoice where
  message : ResponseMessage
deriving Repr, DecidableEq

/-- The `body` object of an output line's response. -/
structure OutputBody where
  choices : List ResponseChoice
deriving Repr, DecidableEq

/-- The `response` object of an output line. -/
structure LineResponse where
  body : OutputBody
deriving Repr, DecidableEq

/-- One line of the downloaded output file, as read by
`pd.read_json(..., lines=True)` on source line 88: a `custom_id` plus the
nested response object. -/
structure OutputLine where
  custom_id : String
  response : LineResponse
deriving Repr, DecidableEq

/-- The extraction on source line 89:
`x['body']['choices'][0]['message']['content']`.  Indexing `[0]` into an
empty `choices` array raises in Python, hence the `Option`. -/
def json_text (l : OutputLine) : Option String :=
  match l.response.body.choices with
  | [] => none
  | c :: _ => some c.message.content

/-- `OCRDataProcessor.process_responses` (source lines 84-92), from the
dataframe of downloaded lines onwards: extract each line's message content,
parse it with the tolerant parser, and keep `(custom_id, parsed)` rows in
file order.  `none` models the Python IndexError on a line without choices. -/
def process_responses (lines : List OutputLine) : Option (List (String × JsonV)) :=
  lines.mapM fun l => (json_text l).map fun s => (l.custom_id, json_repair_loads s)

/-- The final `.set_index('custom_id')['json'].to_dict()` on source line 92:
a Python dict built by inserting rows in order, so a later row with the same
`custom_id` overwrites an earlier one — lookup returns the value of the last
row carrying the key. -/
def to_dict (pairs : List (String × JsonV)) (k : String) : Option JsonV :=
  (pairs.reverse.find? (fun p => p.1 == k)).map Prod.snd

/-- Helper to build an output line with a single choice carrying `content`. -/
def mkLine (cid content : String) : OutputLine :=
  { custom_id := cid
    response := { body := { choices := [{ message := { content := content } }] } } }

/-- How each produced pair relates to the output line it came from. -/
def LineRel (l : OutputLine) (p : String × JsonV) : Prop :=
  p.1 = l.custom_id ∧ ∃ s, json_text l = some s ∧ p.2 = json_repair_loads s

theorem process_responses_forall2 :
    ∀ (lines : List OutputLine) (pairs : List (String × JsonV)),
      process_responses lines = some pairs → List.Forall₂ LineRel lines pairs := by
  intro lines
  induction lines with
  | nil =>
    intro pairs h
    have h2 : (some [] : Option (List (String × JsonV))) = some pairs := h
    rw [← Option.some.injEq _ _ |>.mp h2]
    exact List.Forall₂.nil
  | cons l ls ih =>
    intro pairs h
    rw [process_responses, List.mapM_cons] at h
    cases hjt : json_text l with
    | none => rw [hjt] at h; simp at h
    | some s =>
      rw [hjt] at h
      cases hrest : process_responses ls with
      | none => rw [process_responses] at hrest; rw [hrest] at h; simp at h
      | some rest =>
        have hrest2 := hrest
        rw [process_responses] at hrest2
        rw [hrest2] at h
        simp at h
        rw [← h]
        exact List.Forall₂.cons ⟨rfl, s, hjt, rfl⟩ (ih rest hrest)

theorem find_correspond (k : String) :
    ∀ {ls : List OutputLine} {ps : List (String × JsonV)},
      List.Forall₂ LineRel ls ps →
      (ps.find? (fun p => p.1 == k)).map Prod.snd =
        (ls.find? (fun l => l.custom_id == k)).bind
          (fun l => (json_text l).map json_repair_loads) := by
  intro ls ps h
  induction h with
  | nil => rfl
  | @cons l p ls2 ps2 hR hrest ih =>
    obtain ⟨hfst, s, hjt, hsnd⟩ := hR
    by_cases hk : l.custom_id = k
    · rw [List.find?_cons_of_pos _ (by simp [hfst, hk]),
        List.find?_cons_of_pos _ (by simp [hk])]
      simp [hjt, hsnd]
    · rw [List.find?_cons_of_neg _ (by simp [hfst, hk]),
        List.find?_cons_of_neg _ (by simp [hk])]
      exact ih

/-- C10: whenever result assembly succeeds, the value the returned dict binds
to a key is the tolerant parse of the message content of the LAST line of
the output file carrying that `custom_id` — so with duplicate `custom_id`s,
earlier lines are silently overwritten. -/
theorem process_responses_last_wins (lines : List OutputLine)
    (pairs : List (String × JsonV)) (k : String)
    (h : process_responses lines = some pairs) :
    to_dict pairs k =
      (lines.reverse.find? (fun l => l.custom_id == k)).bind
        (fun l => (json_text l).map json_repair_loads) :=
  find_correspond k
    (List.forall₂_reverse_iff.mpr (process_responses_forall2 lines pairs h))

theorem process_responses_last_wins_witness :
    to_dict [("a", JsonV.obj [("x", JsonV.num 1)]),
             ("a", JsonV.obj [("x", JsonV.num 2)])] "a" =
      (([mkLine "a" "\x7b\"x\":1\x7d", mkLine "a" "\x7b\"x\":2\x7d"].reverse.find?
          (fun l => l.custom_id == "a")).bind
        (fun l => (json_text l).map json_repair_loads)) :=
  process_responses_last_wins
    [mkLine "a" "\x7b\"x\":1\x7d", mkLine "a" "\x7b\"x\":2\x7d"]
    [("a", JsonV.obj [("x", JsonV.num 1)]), ("a", JsonV.obj [("x", JsonV.num 2)])]
    "a" rfl

example :
    to_dict [("a", JsonV.obj [("x", JsonV.num 1)]),
             ("a", JsonV.obj [("x", JsonV.num 2)])] "a" =
      some (JsonV.obj [("x", JsonV.num 2)]) := rfl

/-- C8: on an output file with a well-formed line for id a and a malformed
line (unquoted key, trailing comma), result assembly does not fail: it
recovers x = 1 from the malformed content via tolerant parsing, and the
returned dict maps a to the object x = 1. -/
theorem process_responses_tolerant_example :
    process_responses [mkLine "a" "\x7b\"x\":1\x7d", mkLine "b" "\x7bx:1,\x7d"] =
      some [("a", JsonV.obj [("x", JsonV.num 1)]),
            ("b", JsonV.obj [("x", JsonV.num 1)])] ∧
    json_repair_loads "\x7bx:1,\x7d" = JsonV.obj [("x", JsonV.num 1)] ∧
    to_dict [("a", JsonV.obj [("x", JsonV.num 1)]),
             ("b", JsonV.obj [("x", JsonV.num 1)])] "a" =
      some (JsonV.obj [("x", JsonV.num 1)]) :=
  ⟨rfl, rfl, rfl⟩

theorem forall2_map_fst {ls : List OutputLine} {ps : List (String × JsonV)}
    (h : List.Forall₂ LineRel ls ps) :
    ps.map Prod.fst = ls.map (fun l => l.custom_id) := by
  induction h with
  | nil => rfl
  | cons hR hrest ih => simp [ih, hR.1]

/-- C1: when the provider's output lines carry exactly the submitted
`custom_id`s (as a permutation — output order is not guaranteed) and
assembly succeeds, every Inference Request's `custom_id` appears unchanged
as a key of the final result dict: no record is dropped between
`prepare_data` and `process_responses`. -/
theorem custom_id_round_trip (ocr_data : List (String × String))
    (system_prompt model : String) (lines : List OutputLine)
    (pairs : List (String × JsonV))
    (hproc : process_responses lines = some pairs)
    (hids : (lines.map (fun l => l.custom_id)).Perm
        ((prepare_data ocr_data system_prompt model).map (fun r => r.custom_id))) :
    ∀ k ∈ (prepare_data ocr_data system_prompt model).map (fun r => r.custom_id),
      to_dict pairs k ≠ none := by
  intro k hk
  have hk2 : k ∈ lines.map (fun l => l.custom_id) := hids.mem_iff.mpr hk
  have hfst := forall2_map_fst (process_responses_forall2 lines pairs hproc)
  rw [← hfst] at hk2
  obtain ⟨p, hp, hpk⟩ := List.mem_map.mp hk2
  have hsome : (pairs.reverse.find? (fun q => q.1 == k)).isSome := by
    rw [List.find?_isSome]
    exact ⟨p, List.mem_reverse.mpr hp, by simp [hpk]⟩
  obtain ⟨q, hq⟩ := Option.isSome_iff_exists.mp hsome
  rw [to_dict, hq]
  simp

theorem custom_id_round_trip_witness :
    to_dict [("id1", JsonV.obj [])] "id1" ≠ none :=
  custom_id_round_trip [("id1", "t")] "P" "m" [mkLine "id1" "\x7b\x7d"]
    [("id1", JsonV.obj [])] rfl (List.Perm.refl _) "id1" (by decide)

/-- The batch object returned by the provider's status endpoint, as consumed
by `wait_for_batch_completion` (source lines 75-82). -/
structure BatchDetails where
  status : String
  output_file_id : Option String
deriving Repr, DecidableEq

/-- One outcome of a `get_batch_details` call (source lines 62-70): either
the parsed batch object, or an exception (named by its Python class) raised
by the query. -/
inductive PollEvent where
| details (d : BatchDetails) : PollEvent
| raises (e : String) : PollEvent
deriving Repr, DecidableEq

/-- Outcome of one call of the decorated function body (source lines 75-82):
return the details, raise `BatchNotReadyException`, or raise some other
exception. -/
inductive AttemptOutcome where
| done (d : BatchDetails) : AttemptOutcome
| notReady : AttemptOutcome
| otherError (e : String) : AttemptOutcome
deriving Repr, DecidableEq

/-- The body of `wait_for_batch_completion`: return the details when the
status is completed or failed, otherwise raise `BatchNotReadyException`; an
exception from the status query itself passes through. -/
def wait_attempt (ev : PollEvent) : AttemptOutcome :=
  match ev with
  | .details d =>
    if d.status = "completed" ∨ d.status = "failed" then .done d
    else .notReady
  | .raises e =>
    if e = "BatchNotReadyException" then .notReady else .otherError e

/-- Sleep before retry number `attempt_number + 1`, from tenacity's
`wait_exponential(multiplier=1, max=1800)` as configured on source line 72:
`min(multiplier * 2^(attempt_number - 1), max)` seconds. -/
def tenacity_wait (attempt_number : Nat) : Nat :=
  min (1 * 2 ^ (attempt_number - 1)) 1800

/-- Result of the whole decorated call.  `exc e` is an exception of class `e`
propagating to the caller; `pending` means the supplied finite trace of
status-query outcomes ended while the loop was still retrying. -/
inductive RetryOutcome where
| ok (d : BatchDetails) : RetryOutcome
| exc (e : String) : RetryOutcome
| pending : RetryOutcome
deriving Repr, DecidableEq

/-- The tenacity retry driver configured on source lines 72-74, over an
explicit trace of status-query outcomes: run the body; a normal return or a
non-`BatchNotReadyException` exception ends the call; on
`BatchNotReadyException`, `stop_after_delay(86400)` is consulted (elapsed
seconds since the first attempt, attempts themselves instantaneous) — when
the budget is spent tenacity raises its `RetryError` (`reraise` is left at
its default `False`), otherwise it sleeps `tenacity_wait` and retries. -/
def retry_loop : List PollEvent → Nat → Nat → RetryOutcome
  | [], _, _ => .pending
  | ev :: rest, attempt_number, elapsed =>
    match wait_attempt ev with
    | .done d => .ok d
    | .otherError e => .exc e
    | .notReady =>
      if 86400 ≤ elapsed then .exc "tenacity.RetryError"
      else retry_loop rest (attempt_number + 1) (elapsed + tenacity_wait attempt_number)

/-- `wait_for_batch_completion(batch_id)` as a function of the trace of
status-query outcomes: the retry driver started at attempt 1, elapsed 0. -/
def wait_for_batch_completion (events : List PollEvent) : RetryOutcome :=
  retry_loop events 1 0

/-- `True` when the event is a status report with a non-terminal status. -/
def is_nonterminal_report (ev : PollEvent) : Bool :=
  match ev with
  | .details d => d.status != "completed" && d.status != "failed"
  | .raises _ => false

theorem nonterminal_not_ready (ev : PollEvent)
    (h : is_nonterminal_report ev = true) : wait_attempt ev = .notReady := by
  cases ev with
  | details d =>
    simp only [is_nonterminal_report, Bool.and_eq_true, bne_iff_ne, ne_eq] at h
    simp [wait_attempt, h.1, h.2]
  | raises e => simp [is_nonterminal_report] at h

/-- Total sleep of `n` consecutive retries starting at attempt `a`. -/
def waits_from (a : Nat) : Nat → Nat
  | 0 => 0
  | n + 1 => tenacity_wait a + waits_from (a + 1) n

theorem retry_loop_timeout :
    ∀ (events : List PollEvent) (a t : Nat), events ≠ [] →
      (∀ ev ∈ events, wait_attempt ev = .notReady) →
      86400 ≤ t + waits_from a (events.length - 1) →
      retry_loop events a t = .exc "tenacity.RetryError" := by
  intro events
  induction events with
  | nil => intro a t h; exact absurd rfl h
  | cons ev rest ih =>
    intro a t _ hall hbudget
    have hev : wait_attempt ev = .notReady := hall ev (by simp)
    rw [retry_loop, hev]
    cases rest with
    | nil =>
      simp only [List.length_singleton, Nat.sub_self, waits_from, Nat.add_zero] at hbudget
      simp [hbudget]
    | cons r rs =>
      by_cases hstop : 86400 ≤ t
      · simp [hstop]
      · rw [if_neg hstop]
        refine ih (a + 1) (t + tenacity_wait a) (by simp) (fun x hx => hall x (by simp [hx])) ?_
        have : t + waits_from a (rs.length + 1) =
            t + tenacity_wait a + waits_from (a + 1) rs.length := by
          rw [waits_from, ← Nat.add_assoc]
        simpa [this] using hbudget

/-- C2 (amended): if every status query reports a non-terminal status and the
polling trace is long enough that the cumulative sleep preceding its last
attempt reaches the 86400-second budget, `wait_for_batch_completion` ends by
raising tenacity's `RetryError` — the source defines no `BatchTimeoutError`
— and that exception propagates to the caller as the call's outcome, not a
normal return. -/
theorem wait_timeout_raises_retry_error (events : List PollEvent)
    (hne : events ≠ [])
    (hstatus : ∀ ev ∈ events, is_nonterminal_report ev = true)
    (hbudget : 86400 ≤ waits_from 1 (events.length - 1)) :
    wait_for_batch_completion events = RetryOutcome.exc "tenacity.RetryError" :=
  retry_loop_timeout events 1 0 hne
    (fun ev hev => nonterminal_not_ready ev (hstatus ev hev))
    (by simpa using hbudget)

theorem wait_timeout_raises_retry_error_witness :
    wait_for_batch_completion
        (List.replicate 59 (PollEvent.details ⟨"in_progress", none⟩)) =
      RetryOutcome.exc "tenacity.RetryError" :=
  wait_timeout_raises_retry_error
    (List.replicate 59 (PollEvent.details ⟨"in_progress", none⟩))
    (by decide) (by decide) (by decide)

/-- C2 (counterexample to the claim as stated): on a trace of 59 consecutive
`in_progress` reports the budget is exceeded and the call raises — but the
exception is tenacity's `RetryError`, not a `BatchTimeoutError` (no such
class exists anywhere in the source). -/
theorem wait_timeout_not_batch_timeout_error :
    wait_for_batch_completion
        (List.replicate 59 (PollEvent.details ⟨"in_progress", none⟩)) =
      RetryOutcome.exc "tenacity.RetryError" ∧
    wait_for_batch_completion
        (List.replicate 59 (PollEvent.details ⟨"in_progress", none⟩)) ≠
      RetryOutcome.exc "BatchTimeoutError" := by
  constructor
  · decide
  · decide

theorem wait_attempt_done_status (ev : PollEvent) (d : BatchDetails)
    (h : wait_attempt ev = .done d) :
    d.status = "completed" ∨ d.status = "failed" := by
  cases ev with
  | details d2 =>
    rw [wait_attempt] at h
    by_cases hterm : d2.status = "completed" ∨ d2.status = "failed"
    · rw [if_pos hterm] at h
      cases h
      exact hterm
    · rw [if_neg hterm] at h
      cases h
  | raises e =>
    rw [wait_attempt] at h
    by_cases hb : e = "BatchNotReadyException"
    · rw [if_pos hb] at h; cases h
    · rw [if_neg hb] at h; cases h

theorem retry_loop_ok_status :
    ∀ (events : List PollEvent) (a t : Nat) (d : BatchDetails),
      retry_loop events a t = .ok d →
      d.status = "completed" ∨ d.status = "failed" := by
  intro events
  induction events with
  | nil => intro a t d h; cases h
  | cons ev rest ih =>
    intro a t d h
    rw [retry_loop] at h
    cases hev : wait_attempt ev with
    | done d2 =>
      rw [hev] at h
      cases h
      exact wait_attempt_done_status ev d hev
    | notReady =>
      rw [hev] at h
      by_cases hstop : 86400 ≤ t
      · rw [if_pos hstop] at h; cases h
      · rw [if_neg hstop] at h
        exact ih _ _ d h
    | otherError e =>
      rw [hev] at h
      cases h

/-- C4: the poller returns normally only when the queried status is
completed or failed (first conjunct: any normal return carries a terminal
status), and a report of any other status value keeps it pending and
triggers at least one more wait-then-retry cycle (second conjunct: the call
continues as the retry driver at attempt 2 after sleeping). -/
theorem poller_terminal_only :
    (∀ (events : List PollEvent) (d : BatchDetails),
        wait_for_batch_completion events = RetryOutcome.ok d →
        d.status = "completed" ∨ d.status = "failed") ∧
    (∀ (d : BatchDetails) (rest : List PollEvent),
        d.status ≠ "completed" → d.status ≠ "failed" →
        wait_for_batch_completion (PollEvent.details d :: rest) =
          retry_loop rest 2 (tenacity_wait 1)) := by
  constructor
  · intro events d h
    exact retry_loop_ok_status events 1 0 d h
  · intro d rest hc hf
    rw [wait_for_batch_completion, retry_loop]
    rw [show wait_attempt (PollEvent.details d) = .notReady by
      simp [wait_attempt, hc, hf]]
    norm_num

theorem poller_terminal_only_witness :
    ((⟨"completed", some "file-9"⟩ : BatchDetails).status = "completed" ∨
      (⟨"completed", some "file-9"⟩ : BatchDetails).status = "failed") ∧
    wait_for_batch_completion (PollEvent.details ⟨"validating", none⟩ :: []) =
      retry_loop [] 2 (tenacity_wait 1) :=
  ⟨poller_terminal_only.1 [PollEvent.details ⟨"completed", some "file-9"⟩]
      ⟨"completed", some "file-9"⟩ (by decide),
   poller_terminal_only.2 ⟨"validating", none⟩ [] (by decide) (by decide)⟩

/-- C5: only `BatchNotReadyException` drives the retry loop.  First
conjunct: an exception of any other class raised by the status query
propagates immediately as the call's outcome — whatever events would have
followed and however much budget remains, there is no further cycle.
Second conjunct: `BatchNotReadyException` within budget does retry. -/
theorem poller_only_not_ready_retries :
    (∀ (e : String) (rest : List PollEvent) (a t : Nat),
        e ≠ "BatchNotReadyException" →
        retry_loop (PollEvent.raises e :: rest) a t = RetryOutcome.exc e) ∧
    (∀ (rest : List PollEvent) (a t : Nat), t < 86400 →
        retry_loop (PollEvent.raises "BatchNotReadyException" :: rest) a t =
          retry_loop rest (a + 1) (t + tenacity_wait a)) := by
  constructor
  · intro e rest a t he
    rw [retry_loop]
    rw [show wait_attempt (PollEvent.raises e) = .otherError e by
      simp [wait_attempt, he]]
  · intro rest a t ht
    rw [retry_loop]
    rw [show wait_attempt (PollEvent.raises "BatchNotReadyException") = .notReady by
      simp [wait_attempt]]
    rw [if_neg (by omega)]

theorem poller_only_not_ready_retries_witness :
    retry_loop [PollEvent.raises "requests.exceptions.ConnectionError",
                PollEvent.details ⟨"completed", none⟩] 1 0 =
      RetryOutcome.exc "requests.exceptions.ConnectionError" :=
  poller_only_not_ready_retries.1 "requests.exceptions.ConnectionError"
    [PollEvent.details ⟨"completed", none⟩] 1 0 (by decide)

/-- C9: a terminal status report makes `wait_for_batch_completion` return
the full batch-details object normally — for failed exactly as for
completed; a failed batch is not signalled by an exception, so telling the
two apart (and guarding result assembly) is left entirely to the caller. -/
theorem poller_returns_failed_normally (d : BatchDetails)
    (rest : List PollEvent)
    (h : d.status = "completed" ∨ d.status = "failed") :
    wait_for_batch_completion (PollEvent.details d :: rest) =
      RetryOutcome.ok d := by
  rw [wait_for_batch_completion, retry_loop]
  rw [show wait_attempt (PollEvent.details d) = .done d by
    simp [wait_attempt, h]]

theorem poller_returns_failed_normally_witness :
    wait_for_batch_completion
        (PollEvent.details ⟨"failed", none⟩ :: []) =
      RetryOutcome.ok ⟨"failed", none⟩ :=
  poller_returns_failed_normally ⟨"failed", none⟩ [] (by decide)

/-- The object `requests.post` returns on source line 58: the HTTP status
code and the parsed body (`response.json()`). -/
structure HttpResponse where
  status_code : Nat
  json : JsonV

/-- A Python call that either returns a value or raises an exception of the
named class. -/
inductive PyResult (α : Type) where
| ret (a : α) : PyResult α
| raised (e : String) : PyResult α

/-- The request payload built on source lines 53-57. -/
def create_batch_request_data (input_file_id : String) : JsonV :=
  JsonV.obj [("input_file_id", JsonV.str input_file_id),
             ("endpoint", JsonV.str "/v1/chat/completions"),
             ("completion_window", JsonV.str "24h")]

/-- `OCRDataProcessor._create_batch` (source lines 47-60), as a function of
the response the batch-creation endpoint sent back: the source logs the
status code and unconditionally returns `response.json()` — no status-code
check, no exception of any kind, on any response. -/
def _create_batch (input_file_id : String) (response : HttpResponse) :
    PyResult JsonV :=
  PyResult.ret response.json

/-- C3 (counterexample to the claim as stated): on a 500 response from the
batch-creation endpoint, `_create_batch` returns the parsed response body
as a normal result and raises nothing — in particular no `SubmissionError`
(no such class exists in the source). -/
theorem create_batch_non2xx_no_submission_error :
    _create_batch "file-1" ⟨500, JsonV.obj [("error", JsonV.str "bad")]⟩ =
      PyResult.ret (JsonV.obj [("error", JsonV.str "bad")]) ∧
    _create_batch "file-1" ⟨500, JsonV.obj [("error", JsonV.str "bad")]⟩ ≠
      PyResult.raised "SubmissionError" :=
  ⟨rfl, fun h => by cases h⟩

/-- C3 (amended): when the batch-creation endpoint returns a non-2xx
response, `_create_batch` does NOT fail: it only logs the status code and
returns the parsed response body normally, so the raw response body does
reach the caller, but as the ordinary return value of a call that never
raises `SubmissionError` — the latent gap the spec's error taxonomy
acknowledges. -/
theorem create_batch_non2xx_returns_body (input_file_id : String)
    (response : HttpResponse)
    (hbad : ¬(200 ≤ response.status_code ∧ response.status_code < 300)) :
    _create_batch input_file_id response = PyResult.ret response.json := rfl

theorem create_batch_non2xx_returns_body_witness :
    _create_batch "file-1" ⟨404, JsonV.str "not found"⟩ =
      PyResult.ret (JsonV.str "not found") :=
  create_batch_non2xx_returns_body "file-1" ⟨404, JsonV.str "not found"⟩
    (by decide)
